import Mathlib

/-!
Shallow embedding of the WintRides carpool coordination core.

The definitions below are translated from the repository source:
* `lib/mockCarpools.ts` (the carpool thread store: create, join, confirm,
  unconfirm, lock, cancel, update, messages),
* `app/api/carpools/route.ts` (the POST create route with its validation),
* `app/api/carpools/[id]/messages/route.ts` (the POST message route),
* `lib/mockUsers.ts` (driver availability toggling, stored license
  verification, license expiration status).

Modelling conventions:
* ISO timestamp strings (`new Date().toISOString()`) are modelled as `Nat`
  clock values passed explicitly to every operation (`now`).
* Calendar dates compared at day granularity (both sides set to 00:00 before
  comparing) are modelled as `Int` day indices; `today` is an explicit
  parameter.  The day difference computed by
  `Math.ceil((expiration - today) / 86400000)` on two midnights is the exact
  integer difference of the day indices.
* JavaScript `null`/`undefined`-able values become `Option`; JS string
  truthiness checks (`!s`) become `truthy` below (absent or empty is falsy).
* Functions that return `null` to signal failure return `Option`; functions
  that `throw` a policy error return `Except`.
-/

namespace WintRides

/-- Carpool lifecycle status, from `types/carpool.ts` / the plan document. -/
inductive CarpoolStatus where
  | DRAFT
  | OPEN
  | PENDING_CONFIRMATIONS
  | CONFIRMED
  | CANCELED
  | EXPIRED
  | COMPLETED
deriving DecidableEq

/-- One participant record of a carpool thread. -/
structure CarpoolParticipant where
  userId : String
  joinedAt : Nat
  confirmedAt : Option Nat
  isCreator : Bool
deriving DecidableEq

/-- The `timeWindow` object of a thread (`start`/`end` wall-clock strings). -/
structure TimeWindow where
  start : String
  end_ : String
deriving DecidableEq

/-- A carpool thread record, from `types/carpool.ts` as used by
`lib/mockCarpools.ts`. -/
structure CarpoolThread where
  id : String
  creatorId : String
  destination : String
  date : String
  timeWindow : TimeWindow
  pickupArea : String
  seatsNeeded : Int
  targetGroupSize : Int
  status : CarpoolStatus
  participants : List CarpoolParticipant
  interestedCount : Nat
  confirmedCount : Nat
  notes : Option String
  lockedAt : Option Nat
  canceledAt : Option Nat
  createdAt : Nat
  updatedAt : Nat
deriving DecidableEq

/-- `carpool.participants.filter(p => p.confirmedAt).length`: the number of
participants whose `confirmedAt` is set. -/
def countConfirmed (ps : List CarpoolParticipant) : Nat :=
  (ps.filter (fun p => p.confirmedAt.isSome)).length

/-- `carpools.find(c => c.id === id)` from `getCarpoolById`. -/
def getCarpoolById (carpools : List CarpoolThread) (id : String) : Option CarpoolThread :=
  carpools.find? (fun c => c.id == id)

/-- The data `createCarpool` receives (thread fields minus the generated
ones), from `createCarpool` in `lib/mockCarpools.ts`. -/
structure CreateData where
  creatorId : String
  destination : String
  date : String
  timeWindow : TimeWindow
  pickupArea : String
  seatsNeeded : Int
  targetGroupSize : Int
  notes : Option String
  status : CarpoolStatus
deriving DecidableEq

/-- `createCarpool` from `lib/mockCarpools.ts`: the creator is auto-joined
and auto-confirmed, counts start at 1, status is `data.status || "OPEN"`
(a `CarpoolStatus` string is never empty, hence just `data.status`).
The generated id is passed in explicitly. -/
def createCarpoolThread (id : String) (data : CreateData) (now : Nat) : CarpoolThread :=
  let creator : CarpoolParticipant :=
    { userId := data.creatorId, joinedAt := now, confirmedAt := some now, isCreator := true }
  { id := id
    creatorId := data.creatorId
    destination := data.destination
    date := data.date
    timeWindow := data.timeWindow
    pickupArea := data.pickupArea
    seatsNeeded := data.seatsNeeded
    targetGroupSize := data.targetGroupSize
    status := data.status
    participants := [creator]
    interestedCount := 1
    confirmedCount := 1
    notes := data.notes
    lockedAt := none
    canceledAt := none
    createdAt := now
    updatedAt := now }

/-- Body of `addParticipant` from `lib/mockCarpools.ts`, after the thread has
been found in the store (the store returns `null` when it is missing and
otherwise mutates the found thread exactly like this). -/
def addParticipantThread (c : CarpoolThread) (userId : String) (now : Nat) : CarpoolThread :=
  if c.participants.any (fun p => p.userId == userId) then c
  else
    let ps := c.participants ++
      [{ userId := userId, joinedAt := now, confirmedAt := none, isCreator := false }]
    let c1 := { c with participants := ps, interestedCount := ps.length, updatedAt := now }
    if c1.status = CarpoolStatus.OPEN ∧ 0 < c1.confirmedCount then
      { c1 with status := CarpoolStatus.PENDING_CONFIRMATIONS }
    else c1

/-- `participant.confirmedAt = now` applied to the first participant with the
given userId (JS `find` returns the first match and it is mutated in place). -/
def setConfirmedFirst : List CarpoolParticipant → String → Nat → List CarpoolParticipant
  | [], _, _ => []
  | p :: rest, u, now =>
    if p.userId == u then { p with confirmedAt := some now } :: rest
    else p :: setConfirmedFirst rest u now

/-- `participant.confirmedAt = undefined` applied to the first participant
with the given userId. -/
def clearConfirmedFirst : List CarpoolParticipant → String → List CarpoolParticipant
  | [], _ => []
  | p :: rest, u =>
    if p.userId == u then { p with confirmedAt := none } :: rest
    else p :: clearConfirmedFirst rest u

/-- Body of `confirmParticipant` from `lib/mockCarpools.ts`, after the thread
lookup; `none` is the `null` return for a missing participant. -/
def confirmParticipantThread (c : CarpoolThread) (userId : String) (now : Nat) :
    Option CarpoolThread :=
  match c.participants.find? (fun p => p.userId == userId) with
  | none => none
  | some p =>
    if p.confirmedAt.isSome then some c
    else
      let ps := setConfirmedFirst c.participants userId now
      let cc := countConfirmed ps
      let c1 := { c with participants := ps, confirmedCount := cc, updatedAt := now }
      if 0 < cc ∧ (cc : Int) < c1.targetGroupSize then
        some { c1 with status := CarpoolStatus.PENDING_CONFIRMATIONS }
      else if (cc : Int) ≥ c1.targetGroupSize then
        some { c1 with status := CarpoolStatus.PENDING_CONFIRMATIONS }
      else some c1

/-- Body of `unconfirmParticipant` from `lib/mockCarpools.ts`, after the
thread lookup (every found-thread path returns the thread). -/
def unconfirmParticipantThread (c : CarpoolThread) (userId : String) (now : Nat) :
    CarpoolThread :=
  match c.participants.find? (fun p => p.userId == userId) with
  | none => c
  | some p =>
    if p.confirmedAt.isNone then c
    else if c.status = CarpoolStatus.CONFIRMED then c
    else
      let ps := clearConfirmedFirst c.participants userId
      let cc := countConfirmed ps
      let c1 := { c with participants := ps, confirmedCount := cc, updatedAt := now }
      if cc = 0 then { c1 with status := CarpoolStatus.OPEN }
      else { c1 with status := CarpoolStatus.PENDING_CONFIRMATIONS }

/-- Body of `lockCarpool` from `lib/mockCarpools.ts`, after the thread
lookup; `none` covers both the wrong-creator and wrong-status `null`s. -/
def lockCarpoolThread (c : CarpoolThread) (creatorId : String) (now : Nat) :
    Option CarpoolThread :=
  if c.creatorId ≠ creatorId then none
  else if c.status ≠ CarpoolStatus.PENDING_CONFIRMATIONS ∧ c.status ≠ CarpoolStatus.OPEN then
    none
  else
    some { c with status := CarpoolStatus.CONFIRMED, lockedAt := some now, updatedAt := now }

/-- Body of `cancelCarpool` from `lib/mockCarpools.ts`, after the thread
lookup. -/
def cancelCarpoolThread (c : CarpoolThread) (creatorId : String) (now : Nat) :
    Option CarpoolThread :=
  if c.creatorId ≠ creatorId then none
  else
    some { c with status := CarpoolStatus.CANCELED, canceledAt := some now, updatedAt := now }

/-- One mutating store operation targeted at a given thread, with the clock
value of the call. -/
inductive Op where
  | join (userId : String) (now : Nat)
  | confirm (userId : String) (now : Nat)
  | unconfirm (userId : String) (now : Nat)
  | lock (callerId : String) (now : Nat)
  | cancel (callerId : String) (now : Nat)
deriving DecidableEq

/-- Effect of one store operation on the thread it targets.  An operation
that returns `null` without mutating (missing participant, wrong creator,
wrong status) leaves the thread unchanged. -/
def applyOp (c : CarpoolThread) : Op → CarpoolThread
  | Op.join u n => addParticipantThread c u n
  | Op.confirm u n => (confirmParticipantThread c u n).getD c
  | Op.unconfirm u n => unconfirmParticipantThread c u n
  | Op.lock who n => (lockCarpoolThread c who n).getD c
  | Op.cancel who n => (cancelCarpoolThread c who n).getD c

/-- A thread after a sequence of store operations. -/
def runOps (c : CarpoolThread) (ops : List Op) : CarpoolThread :=
  ops.foldl applyOp c

/-- `Partial<CarpoolThread>`: every field optionally supplied, from
`updateCarpool` in `lib/mockCarpools.ts`. -/
structure CarpoolUpdates where
  id : Option String
  creatorId : Option String
  destination : Option String
  date : Option String
  timeWindow : Option TimeWindow
  pickupArea : Option String
  seatsNeeded : Option Int
  targetGroupSize : Option Int
  status : Option CarpoolStatus
  participants : Option (List CarpoolParticipant)
  interestedCount : Option Nat
  confirmedCount : Option Nat
  notes : Option (Option String)
  lockedAt : Option (Option Nat)
  canceledAt : Option (Option Nat)
  createdAt : Option Nat
  updatedAt : Option Nat
deriving DecidableEq

/-- The empty partial update (no field supplied). -/
def noUpdates : CarpoolUpdates :=
  { id := none, creatorId := none, destination := none, date := none, timeWindow := none
    pickupArea := none, seatsNeeded := none, targetGroupSize := none, status := none
    participants := none, interestedCount := none, confirmedCount := none, notes := none
    lockedAt := none, canceledAt := none, createdAt := none, updatedAt := none }

/-- `{...carpools[index], ...updates, updatedAt: new Date().toISOString()}`:
each supplied field overwrites the stored one, and `updatedAt` is stamped
last (so a supplied `updatedAt` is itself overwritten). -/
def applyUpdates (c : CarpoolThread) (u : CarpoolUpdates) (now : Nat) : CarpoolThread :=
  { id := u.id.getD c.id
    creatorId := u.creatorId.getD c.creatorId
    destination := u.destination.getD c.destination
    date := u.date.getD c.date
    timeWindow := u.timeWindow.getD c.timeWindow
    pickupArea := u.pickupArea.getD c.pickupArea
    seatsNeeded := u.seatsNeeded.getD c.seatsNeeded
    targetGroupSize := u.targetGroupSize.getD c.targetGroupSize
    status := u.status.getD c.status
    participants := u.participants.getD c.participants
    interestedCount := u.interestedCount.getD c.interestedCount
    confirmedCount := u.confirmedCount.getD c.confirmedCount
    notes := u.notes.getD c.notes
    lockedAt := u.lockedAt.getD c.lockedAt
    canceledAt := u.canceledAt.getD c.canceledAt
    createdAt := u.createdAt.getD c.createdAt
    updatedAt := now }

/-- `updateCarpool` from `lib/mockCarpools.ts`: `findIndex(c => c.id === id)`
(first match), `null` when absent, else the record at that index is replaced
by the merged record, which is also returned. -/
def updateCarpoolStore : List CarpoolThread → String → CarpoolUpdates → Nat →
    Option CarpoolThread × List CarpoolThread
  | [], _, _, _ => (none, [])
  | c :: rest, id, u, now =>
    if c.id == id then
      let c1 := applyUpdates c u now
      (some c1, c1 :: rest)
    else
      let r := updateCarpoolStore rest id u now
      (r.1, c :: r.2)

/-- JS `String.prototype.trim`: strip leading and trailing whitespace.
Defined structurally over the character list so that it evaluates inside
the kernel (the library `String.trim` uses byte-position recursion that does
not reduce definitionally). -/
def jsTrim (s : String) : String :=
  String.mk (((s.data.dropWhile Char.isWhitespace).reverse.dropWhile
    Char.isWhitespace).reverse)

/-- JS string truthiness of an optional field: `undefined` and the empty
string are falsy, any other string is truthy. -/
def truthy : Option String → Bool
  | none => false
  | some s => s ≠ ""

/-- Error response of a route handler (HTTP 400 with a message). -/
inductive RouteError where
  | validationError (msg : String)
deriving DecidableEq

/-- The JSON body accepted by `POST /api/carpools`
(`app/api/carpools/route.ts`): every field may be absent. -/
structure CreateBody where
  creatorId : Option String
  destination : Option String
  date : Option String
  timeWindow : Option TimeWindow
  pickupArea : Option String
  seatsNeeded : Option Int
  notes : Option String
  status : Option CarpoolStatus
deriving DecidableEq

/-- The route guard
`!creatorId || !destination || !date || !timeWindow || !pickupArea ||
seatsNeeded === undefined`, stated positively (all required fields present). -/
def requiredPresent (body : CreateBody) : Bool :=
  truthy body.creatorId && truthy body.destination && truthy body.date
    && body.timeWindow.isSome && truthy body.pickupArea && body.seatsNeeded.isSome

/-- `POST /api/carpools` from `app/api/carpools/route.ts`: missing-field
check, `seatsNeeded < 1` check, `targetGroupSize = seatsNeeded + 1`, trimmed
descriptors, `status || "OPEN"`, then `createCarpool`.  The `.getD` defaults
are unreachable under the guard. -/
def postCarpools (body : CreateBody) (id : String) (now : Nat) :
    Except RouteError CarpoolThread :=
  if requiredPresent body = false then
    Except.error (RouteError.validationError "Missing required fields")
  else
    let seats := body.seatsNeeded.getD 0
    if seats < 1 then
      Except.error (RouteError.validationError "Seats needed must be at least 1")
    else
      Except.ok (createCarpoolThread id
        { creatorId := body.creatorId.getD ""
          destination := jsTrim (body.destination.getD "")
          date := body.date.getD ""
          timeWindow := body.timeWindow.getD { start := "", end_ := "" }
          pickupArea := jsTrim (body.pickupArea.getD "")
          seatsNeeded := seats
          targetGroupSize := seats + 1
          notes := body.notes.map jsTrim
          status := body.status.getD CarpoolStatus.OPEN } now)

/-- One chat message, from `types/carpool.ts`. -/
structure CarpoolMessage where
  id : String
  carpoolId : String
  userId : String
  content : String
  createdAt : Nat
deriving DecidableEq

/-- `addMessage` from `lib/mockCarpools.ts`: builds the message with trimmed
content, pushes it onto the store, returns it.  It never looks at the carpool
store, so any `carpoolId` is accepted.  The generated id is passed in. -/
def addMessage (msgs : List CarpoolMessage) (msgId carpoolId userId content : String)
    (now : Nat) : CarpoolMessage × List CarpoolMessage :=
  let m : CarpoolMessage :=
    { id := msgId, carpoolId := carpoolId, userId := userId
      content := jsTrim content, createdAt := now }
  (m, msgs ++ [m])

/-- Outcome of `POST /api/carpools/[id]/messages`. -/
inductive MessagePostResult where
  | badRequest (msg : String)
  | created (m : CarpoolMessage)
deriving DecidableEq

/-- `POST /api/carpools/[id]/messages` from
`app/api/carpools/[id]/messages/route.ts`: requires truthy `userId` and
`content`, rejects content empty after trimming, then calls `addMessage`.
The carpool store is never consulted (no not-found path). -/
def postMessage (_carpools : List CarpoolThread) (msgs : List CarpoolMessage)
    (carpoolId : String) (userId content : Option String) (msgId : String) (now : Nat) :
    MessagePostResult × List CarpoolMessage :=
  if !truthy userId || !truthy content then
    (MessagePostResult.badRequest "userId and content are required", msgs)
  else if jsTrim (content.getD "") = "" then
    (MessagePostResult.badRequest "Message content cannot be empty", msgs)
  else
    let r := addMessage msgs msgId carpoolId (userId.getD "") (content.getD "") now
    (MessagePostResult.created r.1, r.2)

/-- Tracking of which expiration alerts were already sent
(`expirationAlertsSent`), timestamps once sent. -/
structure AlertsSent where
  oneWeek : Option Nat
  threeDays : Option Nat
  oneDay : Option Nat
deriving DecidableEq

/-- `DriverInfo` from `types/user.ts` as used by `lib/mockUsers.ts`;
`licenseExpirationDate` is a day index (day granularity, see the header). -/
structure DriverInfo where
  legalName : String
  licenseNumber : Option String
  issuingState : Option String
  licenseExpirationDate : Option Int
  verified : Bool
  verifiedAt : Nat
  lastVerifiedAt : Nat
  expirationAlertsSent : AlertsSent
deriving DecidableEq

/-- The slice of `User` that the driver-availability policy reads and
writes. -/
structure User where
  id : String
  isDriverAvailable : Bool
  driverInfo : Option DriverInfo
  updatedAt : Nat
deriving DecidableEq

/-- `isLicenseExpired` from `lib/mockUsers.ts`: no expiration date counts as
valid; otherwise expired exactly when the expiration day is before today
(both compared at 00:00, i.e. as day indices). -/
def isLicenseExpired (licenseExpirationDate : Option Int) (today : Int) : Bool :=
  match licenseExpirationDate with
  | none => false
  | some e => e < today

/-- `verifyStoredLicense` from `lib/mockUsers.ts`, after the user lookup:
`null` when the user has no driver capability or the stored license is
expired; otherwise stamps `lastVerifiedAt = now`. -/
def verifyStoredLicense (u : User) (today : Int) (now : Nat) : Option User :=
  match u.driverInfo with
  | none => none
  | some di =>
    if isLicenseExpired di.licenseExpirationDate today then none
    else some { u with driverInfo := some { di with lastVerifiedAt := now }, updatedAt := now }

/-- The two errors thrown by `updateDriverAvailability`. -/
inductive PolicyError where
  | capabilityNotEnabled
  | licenseExpired
deriving DecidableEq

/-- `updateDriverAvailability` from `lib/mockUsers.ts`, after the user
lookup: toggling on requires driver capability and an unexpired stored
license (which also stamps `lastVerifiedAt`); toggling off just sets the
flag. -/
def updateDriverAvailability (u : User) (isAvailable : Bool) (today : Int) (now : Nat) :
    Except PolicyError User :=
  if isAvailable && u.driverInfo.isNone then
    Except.error PolicyError.capabilityNotEnabled
  else if isAvailable && u.driverInfo.isSome then
    match verifyStoredLicense u today now with
    | none => Except.error PolicyError.licenseExpired
    | some u1 => Except.ok { u1 with isDriverAvailable := isAvailable, updatedAt := now }
  else Except.ok { u with isDriverAvailable := isAvailable, updatedAt := now }

/-- `users.find(u => u.id === id)` from `getUserById`. -/
def getUserById (users : List User) (id : String) : Option User :=
  users.find? (fun u => u.id == id)

/-- Store-level `updateDriverAvailability`: `null` when the user does not
exist, else the per-user outcome. -/
def updateDriverAvailabilityById (users : List User) (userId : String) (isAvailable : Bool)
    (today : Int) (now : Nat) : Option (Except PolicyError User) :=
  (getUserById users userId).map (fun u => updateDriverAvailability u isAvailable today now)

/-- Which expiration alerts are due now (`alertsNeeded`). -/
structure AlertsNeeded where
  oneWeek : Bool
  threeDays : Bool
  oneDay : Bool
deriving DecidableEq

/-- Return shape of `getLicenseExpirationStatus`. -/
structure ExpirationStatus where
  isExpired : Bool
  daysUntilExpiration : Option Int
  alertsNeeded : AlertsNeeded
deriving DecidableEq

/-- `getLicenseExpirationStatus` from `lib/mockUsers.ts`.  With no driver
info or no expiration date: not expired, `null` days, no alerts.  Else with
`d` the day difference: expired iff `d < 0`, `daysUntilExpiration` is `d`
unless negative (then `null`), and each alert fires in its window only if not
already sent. -/
def getLicenseExpirationStatus (driverInfo : Option DriverInfo) (today : Int) :
    ExpirationStatus :=
  match driverInfo with
  | none =>
    { isExpired := false, daysUntilExpiration := none
      alertsNeeded := { oneWeek := false, threeDays := false, oneDay := false } }
  | some di =>
    match di.licenseExpirationDate with
    | none =>
      { isExpired := false, daysUntilExpiration := none
        alertsNeeded := { oneWeek := false, threeDays := false, oneDay := false } }
    | some e =>
      let d : Int := e - today
      { isExpired := decide (d < 0)
        daysUntilExpiration := if d < 0 then none else some d
        alertsNeeded :=
          { oneWeek := decide (d ≤ 7) && decide (3 < d) && di.expirationAlertsSent.oneWeek.isNone
            threeDays := decide (d ≤ 3) && decide (1 < d) && di.expirationAlertsSent.threeDays.isNone
            oneDay := decide (d = 1) && di.expirationAlertsSent.oneDay.isNone } }

/-- Concrete time window used by the example records below. -/
def demoWindow : TimeWindow := { start := "16:30", end_ := "17:30" }

/-- Concrete creation data mirroring the first seed thread. -/
def demoCreateData : CreateData :=
  { creatorId := "user_creator", destination := "Boston Airport", date := "2026-10-13"
    timeWindow := demoWindow, pickupArea := "Campus Center", seatsNeeded := 2
    targetGroupSize := 3, notes := none, status := CarpoolStatus.OPEN }

/-- A freshly created open thread (creator confirmed, counts 1/1). -/
def demoOpen : CarpoolThread := createCarpoolThread "t_open" demoCreateData 0

/-- The same thread after the creator locked it (status `CONFIRMED`). -/
def demoLocked : CarpoolThread :=
  { demoOpen with
    id := "t_locked"
    status := CarpoolStatus.CONFIRMED
    lockedAt := some 1
    updatedAt := 1 }

/-- A user with no driver capability. -/
def demoUserNoDriver : User :=
  { id := "u_plain", isDriverAvailable := false, driverInfo := none, updatedAt := 0 }

/-- Driver info whose license expired on day -1. -/
def demoDriverInfoExpired : DriverInfo :=
  { legalName := "A B", licenseNumber := some "L1", issuingState := some "MA"
    licenseExpirationDate := some (-1), verified := true, verifiedAt := 0
    lastVerifiedAt := 0
    expirationAlertsSent := { oneWeek := none, threeDays := none, oneDay := none } }

/-- Driver info whose license expires on day 2 with no alerts sent yet. -/
def demoDriverInfoSoon : DriverInfo :=
  { demoDriverInfoExpired with licenseExpirationDate := some 2 }

/-- A user with an expired license. -/
def demoUserExpired : User :=
  { id := "u_expired", isDriverAvailable := false
    driverInfo := some demoDriverInfoExpired, updatedAt := 0 }

/-- A user with a valid (day 2) license. -/
def demoUserValid : User :=
  { id := "u_valid", isDriverAvailable := false
    driverInfo := some demoDriverInfoSoon, updatedAt := 0 }

/-- The user store used by the concrete driver-policy instances. -/
def demoUsers : List User := [demoUserNoDriver, demoUserExpired, demoUserValid]

/-- The open thread after a second user joined (unconfirmed). -/
def demoJoined : CarpoolThread := addParticipantThread demoOpen "user_b" 2

/-- A complete, valid creation request body. -/
def demoBody : CreateBody :=
  { creatorId := some "user_creator", destination := some " Boston Airport "
    date := some "2026-10-13", timeWindow := some demoWindow
    pickupArea := some "Campus Center", seatsNeeded := some 2
    notes := none, status := none }

/-- The same body with the destination missing. -/
def demoBadBody : CreateBody := { demoBody with destination := none }

/-- The same body asking for zero seats. -/
def demoZeroSeats : CreateBody := { demoBody with seatsNeeded := some 0 }

/-- A partial update that rewinds status to `OPEN` and forces
`confirmedCount` to 99, exercising the absence of lifecycle validation. -/
def demoRollback : CarpoolUpdates :=
  { noUpdates with status := some CarpoolStatus.OPEN, confirmedCount := some 99 }

/-- Confirming a participant rewrites `confirmedAt` on the first match and
leaves every userId unchanged. -/
theorem setConfirmedFirst_map_userId (ps : List CarpoolParticipant) (u : String) (now : Nat) :
    (setConfirmedFirst ps u now).map (fun p => p.userId) = ps.map (fun p => p.userId) := by
  induction ps with
  | nil => rfl
  | cons q rest ih =>
    cases hq : (q.userId == u) with
    | true => simp [setConfirmedFirst, hq]
    | false => simp [setConfirmedFirst, hq, ih]

/-- Unconfirming a participant leaves every userId unchanged. -/
theorem clearConfirmedFirst_map_userId (ps : List CarpoolParticipant) (u : String) :
    (clearConfirmedFirst ps u).map (fun p => p.userId) = ps.map (fun p => p.userId) := by
  induction ps with
  | nil => rfl
  | cons q rest ih =>
    cases hq : (q.userId == u) with
    | true => simp [clearConfirmedFirst, hq]
    | false => simp [clearConfirmedFirst, hq, ih]

/-- After `setConfirmedFirst`, the first participant with the given userId is
the found one with `confirmedAt` stamped. -/
theorem setConfirmedFirst_find (ps : List CarpoolParticipant) (u : String) (now : Nat)
    (p : CarpoolParticipant) (h : ps.find? (fun q => q.userId == u) = some p) :
    (setConfirmedFirst ps u now).find? (fun q => q.userId == u)
      = some { p with confirmedAt := some now } := by
  induction ps with
  | nil => simp [List.find?] at h
  | cons q rest ih =>
    cases hq : (q.userId == u) with
    | true =>
      simp only [List.find?, hq] at h
      injection h with h
      subst h
      simp [setConfirmedFirst, hq, List.find?]
    | false =>
      simp only [List.find?, hq] at h
      simp only [setConfirmedFirst, hq, Bool.false_eq_true, if_false, List.find?]
      exact ih h

/-- A successful `setConfirmedFirst` leaves at least one confirmed
participant. -/
theorem countConfirmed_setConfirmedFirst_pos (ps : List CarpoolParticipant) (u : String)
    (now : Nat) (p : CarpoolParticipant) (h : ps.find? (fun q => q.userId == u) = some p) :
    0 < countConfirmed (setConfirmedFirst ps u now) := by
  induction ps with
  | nil => simp [List.find?] at h
  | cons q rest ih =>
    cases hq : (q.userId == u) with
    | true => simp [setConfirmedFirst, hq, countConfirmed, List.filter]
    | false =>
      simp only [List.find?, hq] at h
      have h2 := ih h
      simp only [setConfirmedFirst, hq, Bool.false_eq_true, if_false]
      simp only [countConfirmed, List.filter] at h2 ⊢
      cases hc : q.confirmedAt.isSome
      · simpa [hc] using h2
      · simp [hc]

/-- A join by an existing participant returns the thread unchanged. -/
theorem addParticipantThread_noop (c : CarpoolThread) (u : String) (now : Nat)
    (h : c.participants.any (fun p => p.userId == u) = true) :
    addParticipantThread c u now = c := by
  simp [addParticipantThread, h]

/-- A join by a fresh user appends exactly one unconfirmed participant. -/
theorem addParticipantThread_participants (c : CarpoolThread) (u : String) (now : Nat)
    (h : c.participants.any (fun p => p.userId == u) = false) :
    (addParticipantThread c u now).participants
      = c.participants ++
        [{ userId := u, joinedAt := now, confirmedAt := none, isCreator := false }] := by
  simp only [addParticipantThread, h, Bool.false_eq_true, if_false]
  split
  · rfl
  · rfl

/-- Claim C6: calling `join` twice with the same userId yields the same
thread (participants, counts, and status included) as calling it once — the
second call finds the userId already present and returns the thread
unchanged. -/
theorem claim6_join_idempotent (c : CarpoolThread) (u : String) (n1 n2 : Nat) :
    addParticipantThread (addParticipantThread c u n1) u n2 = addParticipantThread c u n1 := by
  cases h : c.participants.any (fun p => p.userId == u) with
  | true => rw [addParticipantThread_noop c u n1 h, addParticipantThread_noop c u n2 h]
  | false =>
    apply addParticipantThread_noop
    rw [addParticipantThread_participants c u n1 h]
    simp [List.any_append]

/-- Claim C5: on a thread with status `OPEN` and positive `confirmedCount`,
a join by a fresh userId appends that user unconfirmed, recomputes
`interestedCount` from the participant list, leaves `confirmedCount` exactly
as it was before the join (the transition test reads the pre-join confirmed
count; a join never auto-confirms), and moves status to
`PENDING_CONFIRMATIONS`. -/
theorem claim5_join_open_transition (c : CarpoolThread) (u : String) (now : Nat)
    (h1 : c.status = CarpoolStatus.OPEN) (h2 : 0 < c.confirmedCount)
    (h3 : c.participants.any (fun p => p.userId == u) = false) :
    (addParticipantThread c u now).participants
        = c.participants ++
          [{ userId := u, joinedAt := now, confirmedAt := none, isCreator := false }] ∧
    (addParticipantThread c u now).interestedCount = c.participants.length + 1 ∧
    (addParticipantThread c u now).confirmedCount = c.confirmedCount ∧
    (addParticipantThread c u now).status = CarpoolStatus.PENDING_CONFIRMATIONS := by
  simp only [addParticipantThread, h3, Bool.false_eq_true, if_false]
  rw [if_pos ⟨h1, h2⟩]
  simp

/-- Witness for claim C5 at a concrete thread: the freshly created demo
thread is `OPEN` with one confirmed participant; after `user_b` joins, the
status is `PENDING_CONFIRMATIONS` and `interestedCount` is 2. -/
theorem claim5_witness :
    demoOpen.status = CarpoolStatus.OPEN ∧ 0 < demoOpen.confirmedCount ∧
    demoOpen.participants.any (fun p => p.userId == "user_b") = false ∧
    (addParticipantThread demoOpen "user_b" 2).status = CarpoolStatus.PENDING_CONFIRMATIONS ∧
    (addParticipantThread demoOpen "user_b" 2).interestedCount = 2 ∧
    (addParticipantThread demoOpen "user_b" 2).confirmedCount = 1 := by
  have h := claim5_join_open_transition demoOpen "user_b" 2
    (by decide) (by decide) (by decide)
  refine ⟨by decide, by decide, by decide, h.2.2.2, ?_, ?_⟩
  · rw [h.2.1]; decide
  · rw [h.2.2.1]; decide

/-- Claim C3: `confirm` fails (not found) when the userId is not a
participant; it is a no-op when the participant is already confirmed; on an
unconfirmed participant it stamps that participant's `confirmedAt`,
recomputes `confirmedCount` as the number of participants with `confirmedAt`
set, and the resulting status is `PENDING_CONFIRMATIONS` — both below and at
or above `targetGroupSize` (reaching target size never yields `CONFIRMED`);
`confirm` never introduces the `CONFIRMED` status. -/
theorem claim3_confirm_spec :
    (∀ (c : CarpoolThread) (u : String) (now : Nat),
        c.participants.find? (fun q => q.userId == u) = none →
        confirmParticipantThread c u now = none) ∧
    (∀ (c : CarpoolThread) (u : String) (now : Nat) (p : CarpoolParticipant),
        c.participants.find? (fun q => q.userId == u) = some p →
        p.confirmedAt.isSome = true →
        confirmParticipantThread c u now = some c) ∧
    (∀ (c : CarpoolThread) (u : String) (now : Nat) (p : CarpoolParticipant),
        c.participants.find? (fun q => q.userId == u) = some p →
        p.confirmedAt = none →
        ∃ c1, confirmParticipantThread c u now = some c1 ∧
          c1.participants.find? (fun q => q.userId == u)
            = some { p with confirmedAt := some now } ∧
          c1.confirmedCount = countConfirmed c1.participants ∧
          c1.status = CarpoolStatus.PENDING_CONFIRMATIONS) ∧
    (∀ (c : CarpoolThread) (u : String) (now : Nat) (c1 : CarpoolThread),
        confirmParticipantThread c u now = some c1 →
        c1.status = CarpoolStatus.CONFIRMED → c.status = CarpoolStatus.CONFIRMED) := by
  refine ⟨?_, ?_, ?_, ?_⟩
  · intro c u now h
    simp [confirmParticipantThread, h]
  · intro c u now p h hp
    simp [confirmParticipantThread, h, hp]
  · intro c u now p h hp
    have hiso : p.confirmedAt.isSome = false := by rw [hp]; rfl
    have hpos := countConfirmed_setConfirmedFirst_pos c.participants u now p h
    simp only [confirmParticipantThread, h, hiso, Bool.false_eq_true, if_false]
    by_cases hlt :
        ((countConfirmed (setConfirmedFirst c.participants u now) : Int) < c.targetGroupSize)
    · rw [if_pos ⟨hpos, hlt⟩]
      exact ⟨_, rfl, setConfirmedFirst_find _ _ _ _ h, rfl, rfl⟩
    · rw [if_neg (by tauto), if_pos (le_of_not_lt hlt)]
      exact ⟨_, rfl, setConfirmedFirst_find _ _ _ _ h, rfl, rfl⟩
  · intro c u now c1 hres hstat
    cases hf : c.participants.find? (fun q => q.userId == u) with
    | none => simp [confirmParticipantThread, hf] at hres
    | some p =>
      cases hp : p.confirmedAt.isSome with
      | true =>
        simp [confirmParticipantThread, hf, hp] at hres
        rw [hres]
        exact hstat
      | false =>
        simp only [confirmParticipantThread, hf, hp, Bool.false_eq_true, if_false] at hres
        split at hres
        · injection hres with hres
          rw [← hres] at hstat
          simp at hstat
        · split at hres
          · injection hres with hres
            rw [← hres] at hstat
            simp at hstat
          · injection hres with hres
            rw [← hres] at hstat
            simpa using hstat

/-- Witness for claim C3 at concrete threads: confirming a non-participant
fails, confirming the already-confirmed creator is a no-op, and confirming
the freshly joined (unconfirmed) `user_b` yields status
`PENDING_CONFIRMATIONS`. -/
theorem claim3_witness :
    confirmParticipantThread demoOpen "user_x" 3 = none ∧
    confirmParticipantThread demoOpen "user_creator" 3 = some demoOpen ∧
    ((confirmParticipantThread demoJoined "user_b" 3).map (fun c => c.status))
      = some CarpoolStatus.PENDING_CONFIRMATIONS := by
  refine ⟨claim3_confirm_spec.1 demoOpen "user_x" 3 (by decide),
    claim3_confirm_spec.2.1 demoOpen "user_creator" 3
      { userId := "user_creator", joinedAt := 0, confirmedAt := some 0, isCreator := true }
      (by decide) (by decide), ?_⟩
  obtain ⟨c1, he, -, -, hst⟩ := claim3_confirm_spec.2.2.1 demoJoined "user_b" 3
    { userId := "user_b", joinedAt := 2, confirmedAt := none, isCreator := false }
    (by decide) (by decide)
  rw [he]
  simp [hst]

/-- No store operation changes the list of participant userIds except a
fresh join, which appends one; in particular membership is preserved. -/
theorem applyOp_userId_mem (c : CarpoolThread) (op : Op) (x : String)
    (h : x ∈ c.participants.map (fun p => p.userId)) :
    x ∈ (applyOp c op).participants.map (fun p => p.userId) := by
  cases op with
  | join u n =>
    cases hj : c.participants.any (fun p => p.userId == u) with
    | true =>
      simp only [applyOp]
      rw [addParticipantThread_noop c u n hj]
      exact h
    | false =>
      simp only [applyOp]
      rw [addParticipantThread_participants c u n hj]
      simp only [List.map_append, List.mem_append]
      exact Or.inl h
  | confirm u n =>
    cases hf : c.participants.find? (fun p => p.userId == u) with
    | none => simpa [applyOp, confirmParticipantThread, hf] using h
    | some p =>
      cases hp : p.confirmedAt.isSome with
      | true => simpa [applyOp, confirmParticipantThread, hf, hp] using h
      | false =>
        simp only [applyOp, confirmParticipantThread, hf, hp, Bool.false_eq_true, if_false]
        split
        · simpa [setConfirmedFirst_map_userId] using h
        · split
          · simpa [setConfirmedFirst_map_userId] using h
          · simpa [setConfirmedFirst_map_userId] using h
  | unconfirm u n =>
    cases hf : c.participants.find? (fun p => p.userId == u) with
    | none => simpa [applyOp, unconfirmParticipantThread, hf] using h
    | some p =>
      cases hp : p.confirmedAt.isNone with
      | true => simpa [applyOp, unconfirmParticipantThread, hf, hp] using h
      | false =>
        simp only [applyOp, unconfirmParticipantThread, hf, hp, Bool.false_eq_true, if_false]
        split
        · simpa using h
        · split
          · simpa [clearConfirmedFirst_map_userId] using h
          · simpa [clearConfirmedFirst_map_userId] using h
  | lock who n =>
    simp only [applyOp, lockCarpoolThread]
    split
    · simpa using h
    · split
      · simpa using h
      · simpa using h
  | cancel who n =>
    simp only [applyOp, cancelCarpoolThread]
    split
    · simpa using h
    · simpa using h

/-- Participant-userId membership is preserved by any operation sequence. -/
theorem runOps_userId_mem (ops : List Op) (c : CarpoolThread) (x : String)
    (h : x ∈ c.participants.map (fun p => p.userId)) :
    x ∈ (runOps c ops).participants.map (fun p => p.userId) := by
  induction ops generalizing c with
  | nil => exact h
  | cons op ops ih => exact ih (applyOp c op) (applyOp_userId_mem c op x h)

/-- Claim C1 (amended): `lock` succeeds exactly when the caller is the
creator and the status is `OPEN` or `PENDING_CONFIRMATIONS`, and on success
the status is `CONFIRMED` with `lockedAt` set; once a thread is `CONFIRMED`,
`unconfirm` returns it completely unchanged and `join` never alters its
status or its `confirmedCount` — but `join` can still extend the participant
set, and `confirm` of an unconfirmed participant can still alter the status
(see the counterexample). -/
theorem claim1_lock_gate_amended :
    (∀ (c : CarpoolThread) (who : String) (now : Nat),
        (lockCarpoolThread c who now).isSome = true ↔
          (c.creatorId = who ∧
            (c.status = CarpoolStatus.OPEN ∨
              c.status = CarpoolStatus.PENDING_CONFIRMATIONS))) ∧
    (∀ (c : CarpoolThread) (who : String) (now : Nat) (c1 : CarpoolThread),
        lockCarpoolThread c who now = some c1 →
        c1.status = CarpoolStatus.CONFIRMED ∧ c1.lockedAt = some now) ∧
    (∀ (c : CarpoolThread) (u : String) (now : Nat),
        c.status = CarpoolStatus.CONFIRMED → unconfirmParticipantThread c u now = c) ∧
    (∀ (c : CarpoolThread) (u : String) (now : Nat),
        c.status = CarpoolStatus.CONFIRMED →
        (addParticipantThread c u now).status = CarpoolStatus.CONFIRMED ∧
        (addParticipantThread c u now).confirmedCount = c.confirmedCount) := by
  refine ⟨?_, ?_, ?_, ?_⟩
  · intro c who now
    simp only [lockCarpoolThread]
    by_cases h1 : c.creatorId = who
    · by_cases hP : c.status = CarpoolStatus.PENDING_CONFIRMATIONS
      · simp [h1, hP]
      · by_cases hO : c.status = CarpoolStatus.OPEN
        · simp [h1, hO]
        · simp [h1, hP, hO]
    · simp [h1]
  · intro c who now c1 h
    simp only [lockCarpoolThread] at h
    split at h
    · exact absurd h (by simp)
    · split at h
      · exact absurd h (by simp)
      · injection h with h
        rw [← h]
        exact ⟨rfl, rfl⟩
  · intro c u now hst
    cases hf : c.participants.find? (fun p => p.userId == u) with
    | none => simp [unconfirmParticipantThread, hf]
    | some p => simp [unconfirmParticipantThread, hf, hst]
  · intro c u now hst
    cases hj : c.participants.any (fun p => p.userId == u) with
    | true =>
      rw [addParticipantThread_noop c u now hj]
      exact ⟨hst, rfl⟩
    | false =>
      simp only [addParticipantThread, hj, Bool.false_eq_true, if_false]
      rw [if_neg (by simp [hst])]
      exact ⟨hst, rfl⟩

/-- Counterexample to claim C1 as stated: on a concrete `CONFIRMED` thread,
a `join` by a fresh user does alter the participant set and
`interestedCount`, and a subsequent `confirm` of that user alters the status
back to `PENDING_CONFIRMATIONS`. -/
theorem claim1_counterexample :
    demoLocked.status = CarpoolStatus.CONFIRMED ∧
    (addParticipantThread demoLocked "user_b" 5).participants ≠ demoLocked.participants ∧
    (addParticipantThread demoLocked "user_b" 5).interestedCount ≠
      demoLocked.interestedCount ∧
    ((confirmParticipantThread (addParticipantThread demoLocked "user_b" 5) "user_b" 6).map
        (fun c => c.status)) = some CarpoolStatus.PENDING_CONFIRMATIONS := by
  decide

/-- Witness for claim C1 (amended) at concrete threads: the creator can lock
the open demo thread and the result is `CONFIRMED`; a stranger cannot lock
it; `unconfirm` and `join` on the locked demo thread obey the amended
claim. -/
theorem claim1_witness :
    (lockCarpoolThread demoOpen "user_creator" 1).isSome = true ∧
    (lockCarpoolThread demoOpen "user_x" 1).isSome = false ∧
    ((lockCarpoolThread demoOpen "user_creator" 1).map (fun c => c.status))
      = some CarpoolStatus.CONFIRMED ∧
    unconfirmParticipantThread demoLocked "user_creator" 2 = demoLocked ∧
    (addParticipantThread demoLocked "user_b" 2).status = CarpoolStatus.CONFIRMED := by
  have e : lockCarpoolThread demoOpen "user_creator" 1
      = some { demoOpen with
          status := CarpoolStatus.CONFIRMED, lockedAt := some 1, updatedAt := 1 } := by
    decide
  refine ⟨(claim1_lock_gate_amended.1 demoOpen "user_creator" 1).mpr ⟨by decide, Or.inl (by decide)⟩,
    by decide, ?_,
    claim1_lock_gate_amended.2.2.1 demoLocked "user_creator" 2 (by decide),
    (claim1_lock_gate_amended.2.2.2 demoLocked "user_b" 2 (by decide)).1⟩
  rw [e]
  have h2 := claim1_lock_gate_amended.2.1 demoOpen "user_creator" 1 _ e
  simp [h2.1]

/-- Claim C2 (amended): under every operation sequence from creation the
creator remains a member of the participant list (no operation removes
participants; `unconfirm` in particular preserves the userId list) — but the
creator does not always stay confirmed: `unconfirm` with the creator's
userId on a non-`CONFIRMED` thread clears the creator's `confirmedAt` (see
the counterexample). -/
theorem claim2_creator_membership_amended :
    (∀ (id : String) (data : CreateData) (now : Nat) (ops : List Op),
        data.creatorId ∈
          (runOps (createCarpoolThread id data now) ops).participants.map
            (fun p => p.userId)) ∧
    (∀ (c : CarpoolThread) (u : String) (now : Nat),
        (unconfirmParticipantThread c u now).participants.map (fun p => p.userId)
          = c.participants.map (fun p => p.userId)) := by
  constructor
  · intro id data now ops
    apply runOps_userId_mem
    simp [createCarpoolThread]
  · intro c u now
    cases hf : c.participants.find? (fun p => p.userId == u) with
    | none => simp [unconfirmParticipantThread, hf]
    | some p =>
      cases hp : p.confirmedAt.isNone with
      | true => simp [unconfirmParticipantThread, hf, hp]
      | false =>
        simp only [unconfirmParticipantThread, hf, hp, Bool.false_eq_true, if_false]
        split
        · rfl
        · split
          · simp [clearConfirmedFirst_map_userId]
          · simp [clearConfirmedFirst_map_userId]

/-- Counterexample to claim C2 as stated: after create followed by
`unconfirm` with the creator's own userId, the creator is still a
participant but the creator's `confirmedAt` has been cleared and
`confirmedCount` dropped to 0. -/
theorem claim2_counterexample :
    ((runOps (createCarpoolThread "t1" demoCreateData 0)
          [Op.unconfirm "user_creator" 1]).participants.find?
        (fun p => p.userId == "user_creator")).map (fun p => p.confirmedAt) = some none ∧
    (runOps (createCarpoolThread "t1" demoCreateData 0)
        [Op.unconfirm "user_creator" 1]).confirmedCount = 0 := by
  decide

/-- Claim C4: with every required trip descriptor present and
`seatsNeeded >= 1`, create returns a thread with
`targetGroupSize = seatsNeeded + 1`, the creator as a participant with
`joinedAt` and `confirmedAt` set, counts 1/1, and status `OPEN` unless an
override was supplied; a missing descriptor or `seatsNeeded < 1` fails with
a validation error. -/
theorem claim4_create_spec :
    (∀ (body : CreateBody) (id : String) (now : Nat) (s : Int) (creator : String),
        requiredPresent body = true → body.seatsNeeded = some s → 1 ≤ s →
        body.creatorId = some creator →
        ∃ t, postCarpools body id now = Except.ok t ∧
          t.seatsNeeded = s ∧
          t.targetGroupSize = s + 1 ∧
          t.participants = [{ userId := creator, joinedAt := now,
                              confirmedAt := some now, isCreator := true }] ∧
          t.interestedCount = 1 ∧ t.confirmedCount = 1 ∧
          t.status = body.status.getD CarpoolStatus.OPEN) ∧
    (∀ (body : CreateBody) (id : String) (now : Nat),
        requiredPresent body = false →
        postCarpools body id now
          = Except.error (RouteError.validationError "Missing required fields")) ∧
    (∀ (body : CreateBody) (id : String) (now : Nat) (s : Int),
        requiredPresent body = true → body.seatsNeeded = some s → s < 1 →
        postCarpools body id now
          = Except.error (RouteError.validationError "Seats needed must be at least 1")) := by
  refine ⟨?_, ?_, ?_⟩
  · intro body id now s creator hreq hs hge hc
    have h1 : ¬ (requiredPresent body = false) := by simp [hreq]
    have hns : ¬ (s < 1) := by omega
    simp only [postCarpools]
    rw [if_neg h1, hs]
    simp only [Option.getD_some]
    rw [if_neg hns, hc]
    simp only [Option.getD_some, createCarpoolThread]
    exact ⟨_, rfl, rfl, rfl, rfl, rfl, rfl, rfl⟩
  · intro body id now h
    simp [postCarpools, h]
  · intro body id now s hreq hs hlt
    have h1 : ¬ (requiredPresent body = false) := by simp [hreq]
    simp only [postCarpools]
    rw [if_neg h1, hs]
    simp only [Option.getD_some]
    rw [if_pos hlt]

/-- Witness for claim C4 at concrete bodies: the valid demo body creates a
thread with target size 3, status `OPEN`, counts 1/1; dropping the
destination or asking for 0 seats is rejected with the respective
validation error. -/
theorem claim4_witness :
    (∃ t, postCarpools demoBody "t_new" 0 = Except.ok t ∧
       t.targetGroupSize = 3 ∧ t.status = CarpoolStatus.OPEN ∧
       t.interestedCount = 1 ∧ t.confirmedCount = 1) ∧
    postCarpools demoBadBody "t_new" 0
      = Except.error (RouteError.validationError "Missing required fields") ∧
    postCarpools demoZeroSeats "t_new" 0
      = Except.error (RouteError.validationError "Seats needed must be at least 1") := by
  obtain ⟨t, ht, hs1, htg, hp, hi, hcc, hstat⟩ :=
    claim4_create_spec.1 demoBody "t_new" 0 2 "user_creator"
      (by decide) (by decide) (by decide) (by decide)
  refine ⟨⟨t, ht, by rw [htg]; decide, by rw [hstat]; decide, hi, hcc⟩,
    claim4_create_spec.2.1 demoBadBody "t_new" 0 (by decide),
    claim4_create_spec.2.2 demoZeroSeats "t_new" 0 0 (by decide) (by decide) (by decide)⟩

/-- Claim C7: for an existing user, turning availability off always
succeeds; turning it on fails with `capabilityNotEnabled` when the user has
no `DriverInfo`, fails with `licenseExpired` when the stored expiration day
is before today (day granularity), and otherwise succeeds, setting the flag
and stamping `lastVerifiedAt = now`. -/
theorem claim7_availability_spec :
    (∀ (users : List User) (uid : String) (u : User) (today : Int) (now : Nat),
        getUserById users uid = some u →
        ∃ u1, updateDriverAvailabilityById users uid false today now
            = some (Except.ok u1) ∧ u1.isDriverAvailable = false) ∧
    (∀ (users : List User) (uid : String) (u : User) (today : Int) (now : Nat),
        getUserById users uid = some u → u.driverInfo = none →
        updateDriverAvailabilityById users uid true today now
          = some (Except.error PolicyError.capabilityNotEnabled)) ∧
    (∀ (users : List User) (uid : String) (u : User) (today : Int) (now : Nat)
        (di : DriverInfo) (e : Int),
        getUserById users uid = some u → u.driverInfo = some di →
        di.licenseExpirationDate = some e → e < today →
        updateDriverAvailabilityById users uid true today now
          = some (Except.error PolicyError.licenseExpired)) ∧
    (∀ (users : List User) (uid : String) (u : User) (today : Int) (now : Nat)
        (di : DriverInfo),
        getUserById users uid = some u → u.driverInfo = some di →
        isLicenseExpired di.licenseExpirationDate today = false →
        ∃ u1, updateDriverAvailabilityById users uid true today now
            = some (Except.ok u1) ∧
          u1.isDriverAvailable = true ∧
          u1.driverInfo = some { di with lastVerifiedAt := now } ∧
          u1.updatedAt = now) := by
  refine ⟨?_, ?_, ?_, ?_⟩
  · intro users uid u today now h
    simp [updateDriverAvailabilityById, h, updateDriverAvailability]
  · intro users uid u today now h hdi
    simp [updateDriverAvailabilityById, h, updateDriverAvailability, hdi]
  · intro users uid u today now di e h hdi he hlt
    simp [updateDriverAvailabilityById, h, updateDriverAvailability, hdi,
      verifyStoredLicense, isLicenseExpired, he, hlt]
  · intro users uid u today now di h hdi hexp
    simp [updateDriverAvailabilityById, h, updateDriverAvailability, hdi,
      verifyStoredLicense, hexp]

/-- Witness for claim C7 at a concrete user store: turning the expired
driver off succeeds; enabling the capability-less user errors; enabling the
expired driver errors; enabling the valid driver succeeds and stamps
`lastVerifiedAt`. -/
theorem claim7_witness :
    (∃ u1, updateDriverAvailabilityById demoUsers "u_expired" false 0 3
        = some (Except.ok u1) ∧ u1.isDriverAvailable = false) ∧
    updateDriverAvailabilityById demoUsers "u_plain" true 0 3
      = some (Except.error PolicyError.capabilityNotEnabled) ∧
    updateDriverAvailabilityById demoUsers "u_expired" true 0 3
      = some (Except.error PolicyError.licenseExpired) ∧
    (∃ u1, updateDriverAvailabilityById demoUsers "u_valid" true 0 3
        = some (Except.ok u1) ∧ u1.isDriverAvailable = true ∧
        (u1.driverInfo.map (fun di => di.lastVerifiedAt)) = some 3) := by
  obtain ⟨u1, he1, hf1⟩ :=
    claim7_availability_spec.1 demoUsers "u_expired" demoUserExpired 0 3 (by decide)
  obtain ⟨u2, he2, hav2, hdi2, -⟩ :=
    claim7_availability_spec.2.2.2 demoUsers "u_valid" demoUserValid 0 3 demoDriverInfoSoon
      (by decide) (by decide) (by decide)
  refine ⟨⟨u1, he1, hf1⟩,
    claim7_availability_spec.2.1 demoUsers "u_plain" demoUserNoDriver 0 3
      (by decide) (by decide),
    claim7_availability_spec.2.2.1 demoUsers "u_expired" demoUserExpired 0 3
      demoDriverInfoExpired (-1) (by decide) (by decide) (by decide) (by decide),
    ⟨u2, he2, hav2, ?_⟩⟩
  rw [hdi2]
  rfl

/-- Claim C8: with no expiration date on file, the status reports not
expired, `null` days, no alerts.  With one on file and `d` the
day-granularity difference to today: `isExpired` iff `d < 0`,
`daysUntilExpiration` is `d` when `d >= 0` and `null` otherwise, and the
alert flags fire exactly in their windows (`3 < d <= 7`, `1 < d <= 3`,
`d = 1`) when not already sent; at `d = 2` with no prior alerts only the
three-day alert fires. -/
theorem claim8_expiration_spec :
    (∀ (today : Int), getLicenseExpirationStatus none today
        = { isExpired := false, daysUntilExpiration := none
            alertsNeeded := { oneWeek := false, threeDays := false, oneDay := false } }) ∧
    (∀ (di : DriverInfo) (today : Int), di.licenseExpirationDate = none →
        getLicenseExpirationStatus (some di) today
          = { isExpired := false, daysUntilExpiration := none
              alertsNeeded := { oneWeek := false, threeDays := false, oneDay := false } }) ∧
    (∀ (di : DriverInfo) (today e : Int), di.licenseExpirationDate = some e →
        ((getLicenseExpirationStatus (some di) today).isExpired = true ↔ e - today < 0) ∧
        (getLicenseExpirationStatus (some di) today).daysUntilExpiration
          = (if e - today < 0 then none else some (e - today)) ∧
        ((getLicenseExpirationStatus (some di) today).alertsNeeded.oneWeek = true ↔
          (3 < e - today ∧ e - today ≤ 7 ∧ di.expirationAlertsSent.oneWeek = none)) ∧
        ((getLicenseExpirationStatus (some di) today).alertsNeeded.threeDays = true ↔
          (1 < e - today ∧ e - today ≤ 3 ∧ di.expirationAlertsSent.threeDays = none)) ∧
        ((getLicenseExpirationStatus (some di) today).alertsNeeded.oneDay = true ↔
          (e - today = 1 ∧ di.expirationAlertsSent.oneDay = none))) ∧
    (getLicenseExpirationStatus (some demoDriverInfoSoon) 0
        = { isExpired := false, daysUntilExpiration := some 2
            alertsNeeded := { oneWeek := false, threeDays := true, oneDay := false } }) := by
  refine ⟨?_, ?_, ?_, by decide⟩
  · intro today
    simp [getLicenseExpirationStatus]
  · intro di today h
    simp [getLicenseExpirationStatus, h]
  · intro di today e h
    refine ⟨?_, ?_, ?_, ?_, ?_⟩
    · simp [getLicenseExpirationStatus, h]
    · simp [getLicenseExpirationStatus, h]
    · simp [getLicenseExpirationStatus, h, Bool.and_eq_true, decide_eq_true_eq,
        Option.isNone_iff_eq_none]
      tauto
    · simp [getLicenseExpirationStatus, h, Bool.and_eq_true, decide_eq_true_eq,
        Option.isNone_iff_eq_none]
      tauto
    · simp [getLicenseExpirationStatus, h, Bool.and_eq_true, decide_eq_true_eq,
        Option.isNone_iff_eq_none]

/-- Witness for claim C8 at concrete driver records: two days out with no
prior alerts, only the three-day alert fires; an expired record reports
expired with `null` days. -/
theorem claim8_witness :
    (getLicenseExpirationStatus (some demoDriverInfoSoon) 0).alertsNeeded.threeDays = true ∧
    (getLicenseExpirationStatus (some demoDriverInfoSoon) 0).alertsNeeded.oneWeek = false ∧
    (getLicenseExpirationStatus (some demoDriverInfoSoon) 0).alertsNeeded.oneDay = false ∧
    (getLicenseExpirationStatus (some demoDriverInfoExpired) 0).isExpired = true ∧
    (getLicenseExpirationStatus (some demoDriverInfoExpired) 0).daysUntilExpiration = none := by
  have h3 := claim8_expiration_spec.2.2.1 demoDriverInfoSoon 0 2 (by decide)
  have hE := claim8_expiration_spec.2.2.1 demoDriverInfoExpired 0 (-1) (by decide)
  refine ⟨h3.2.2.2.1.mpr ⟨by decide, by decide, by decide⟩, by decide, by decide,
    hE.1.mpr (by decide), ?_⟩
  rw [hE.2.1]
  decide

/-- Claim C9: `updateCarpool` returns `null` exactly when no stored thread
has the given id; on the first thread with the id it overwrites exactly the
supplied fields, stamps `updatedAt`, and performs no lifecycle validation —
in particular a concrete update moves a `CONFIRMED` thread back to `OPEN`
and sets `confirmedCount` independently of the participant list. -/
theorem claim9_update_spec :
    (∀ (cs : List CarpoolThread) (id : String) (u : CarpoolUpdates) (now : Nat),
        (updateCarpoolStore cs id u now).1 = none ↔ ∀ c ∈ cs, c.id ≠ id) ∧
    (∀ (pre post : List CarpoolThread) (c : CarpoolThread) (id : String)
        (u : CarpoolUpdates) (now : Nat),
        (∀ c1 ∈ pre, c1.id ≠ id) → c.id = id →
        updateCarpoolStore (pre ++ c :: post) id u now
          = (some (applyUpdates c u now), pre ++ applyUpdates c u now :: post)) ∧
    (∀ (c : CarpoolThread) (u : CarpoolUpdates) (now : Nat),
        (applyUpdates c u now).status = u.status.getD c.status ∧
        (applyUpdates c u now).interestedCount = u.interestedCount.getD c.interestedCount ∧
        (applyUpdates c u now).confirmedCount = u.confirmedCount.getD c.confirmedCount ∧
        (applyUpdates c u now).participants = u.participants.getD c.participants ∧
        (applyUpdates c u now).updatedAt = now) ∧
    (demoLocked.status = CarpoolStatus.CONFIRMED ∧
      (applyUpdates demoLocked demoRollback 7).status = CarpoolStatus.OPEN ∧
      (applyUpdates demoLocked demoRollback 7).confirmedCount = 99 ∧
      (applyUpdates demoLocked demoRollback 7).participants = demoLocked.participants ∧
      (applyUpdates demoLocked demoRollback 7).updatedAt = 7) := by
  refine ⟨?_, ?_, ?_, by decide⟩
  · intro cs id u now
    induction cs with
    | nil => simp [updateCarpoolStore]
    | cons c rest ih =>
      cases hc : (c.id == id) with
      | true =>
        have hce : c.id = id := by simpa using hc
        simp only [updateCarpoolStore, hc, if_true]
        constructor
        · intro h
          exact absurd h (by simp)
        · intro h
          exact absurd hce (h c (by simp))
      | false =>
        have hcne : ¬ (c.id = id) := by simpa using hc
        simp [updateCarpoolStore, hc, hcne, ih]
  · intro pre post c id u now
    induction pre with
    | nil =>
      intro _ hcid
      have hc : (c.id == id) = true := by simpa using hcid
      simp [updateCarpoolStore, hc]
    | cons a pre ih =>
      intro hpre hcid
      have ha : ¬ (a.id = id) := hpre a (by simp)
      have ha2 : (a.id == id) = false := by simpa using ha
      have ih2 := ih (fun c1 hc1 => hpre c1 (by simp [hc1])) hcid
      simp [updateCarpoolStore, ha2, ih2]
  · intro c u now
    exact ⟨rfl, rfl, rfl, rfl, rfl⟩

/-- Witness for claim C9 at a concrete store: updating an absent id yields
`null`; updating the locked demo thread (second in the store) yields the
merged record. -/
theorem claim9_witness :
    (updateCarpoolStore [demoOpen] "missing" demoRollback 7).1 = none ∧
    (updateCarpoolStore [demoOpen, demoLocked] "t_locked" demoRollback 7).1
      = some (applyUpdates demoLocked demoRollback 7) := by
  constructor
  · refine (claim9_update_spec.1 [demoOpen] "missing" demoRollback 7).mpr ?_
    intro c hc
    rw [List.mem_singleton] at hc
    subst hc
    decide
  · have h := claim9_update_spec.2.1 [demoOpen] [] demoLocked "t_locked" demoRollback 7
      (by
        intro c1 hc1
        rw [List.mem_singleton] at hc1
        subst hc1
        decide)
      (by decide)
    have e : [demoOpen, demoLocked] = [demoOpen] ++ demoLocked :: [] := rfl
    rw [e, h]

/-- Claim C10: for a non-empty-after-trim content, `addMessage` always
creates, stores, and returns the message with the trimmed content and the
generated id and timestamp, regardless of the carpool store; the message
route likewise returns 201 even when no thread with the given id exists —
there is no not-found path. -/
theorem claim10_message_spec :
    ∀ (cps : List CarpoolThread) (msgs : List CarpoolMessage)
      (cid uid content msgId : String) (now : Nat),
      jsTrim content ≠ "" → uid ≠ "" → getCarpoolById cps cid = none →
      addMessage msgs msgId cid uid content now
        = ({ id := msgId, carpoolId := cid, userId := uid, content := jsTrim content, createdAt := now },
           msgs ++ [{ id := msgId, carpoolId := cid, userId := uid, content := jsTrim content, createdAt := now }]) ∧
      postMessage cps msgs cid (some uid) (some content) msgId now
        = (MessagePostResult.created
            { id := msgId, carpoolId := cid, userId := uid, content := jsTrim content, createdAt := now },
           msgs ++ [{ id := msgId, carpoolId := cid, userId := uid, content := jsTrim content, createdAt := now }]) := by
  intro cps msgs cid uid content msgId now htrim huid hghost
  have hcne : content ≠ "" := by
    intro h
    rw [h] at htrim
    exact htrim (by decide)
  refine ⟨rfl, ?_⟩
  simp [postMessage, truthy, huid, hcne, htrim, addMessage]

/-- Witness for claim C10 at a concrete store: posting to the nonexistent
thread id `ghost` succeeds with the trimmed message. -/
theorem claim10_witness :
    getCarpoolById [demoOpen] "ghost" = none ∧
    postMessage [demoOpen] [] "ghost" (some "user_b") (some "  hi  ") "m1" 9
      = (MessagePostResult.created
          { id := "m1", carpoolId := "ghost", userId := "user_b", content := "hi", createdAt := 9 },
         [{ id := "m1", carpoolId := "ghost", userId := "user_b", content := "hi", createdAt := 9 }]) := by
  have h := (claim10_message_spec [demoOpen] [] "ghost" "user_b" "  hi  " "m1" 9
    (by decide) (by decide) (by decide)).2
  have e : jsTrim "  hi  " = "hi" := by decide
  rw [e] at h
  exact ⟨by decide, h⟩

end WintRides
